import Mathlib

/-!
Verification of the firewall-assistant policy engine
(`firewall_assistant/profiles.py`, `firewall_assistant/activity_log.py`).

The Python code is shallowly embedded: each operation becomes a pure Lean
function that takes the loaded configuration (modelling `load_config()`) and
the relevant clock reading as explicit inputs, and returns the final
configuration state together with a record of the external effects it
performed (`save_config` calls, `sync_profile_to_windows_firewall` calls,
audit events).  Path canonicalisation (`str(Path(p).resolve())`) is a
filesystem-dependent external function and is passed in as a parameter
`resolve : String → String`.
-/

/-- Model of a Python `datetime.datetime` value: the stdlib class guarantees
by construction that all fields are within calendar range (year 1..9999,
month 1..12, day 1..days-in-month, hour < 24, minute < 60, second < 60,
microsecond < 1000000); `ValidDT` below captures that invariant. -/
structure DateTime where
  year : Nat
  month : Nat
  day : Nat
  hour : Nat
  minute : Nat
  second : Nat
  microsecond : Nat
deriving Repr, DecidableEq

/-- Gregorian leap-year test, as in Python `calendar.isleap`. -/
def isLeap (y : Nat) : Bool :=
  y % 4 = 0 && (y % 100 ≠ 0 || y % 400 = 0)

/-- Days in a month, as validated by `datetime`. -/
def daysInMonth (y m : Nat) : Nat :=
  if m = 2 then (if isLeap y then 29 else 28)
  else if m = 4 ∨ m = 6 ∨ m = 9 ∨ m = 11 then 30
  else 31

/-- The invariant every constructed Python `datetime` object satisfies. -/
def ValidDT (d : DateTime) : Prop :=
  1 ≤ d.year ∧ d.year ≤ 9999 ∧ 1 ≤ d.month ∧ d.month ≤ 12 ∧
  1 ≤ d.day ∧ d.day ≤ daysInMonth d.year d.month ∧
  d.hour ≤ 23 ∧ d.minute ≤ 59 ∧ d.second ≤ 59 ∧ d.microsecond ≤ 999999

instance (d : DateTime) : Decidable (ValidDT d) := by
  unfold ValidDT; infer_instance

/-- Python `datetime` comparison: field-by-field lexicographic. -/
def dtLtB (a b : DateTime) : Bool :=
  if a.year ≠ b.year then decide (a.year < b.year)
  else if a.month ≠ b.month then decide (a.month < b.month)
  else if a.day ≠ b.day then decide (a.day < b.day)
  else if a.hour ≠ b.hour then decide (a.hour < b.hour)
  else if a.minute ≠ b.minute then decide (a.minute < b.minute)
  else if a.second ≠ b.second then decide (a.second < b.second)
  else decide (a.microsecond < b.microsecond)

/-- Truncation to second precision, as `isoformat(timespec="seconds")`
performs before printing and as `fromisoformat` reconstructs when the
string carries no fractional part. -/
def truncSec (d : DateTime) : DateTime :=
  { d with microsecond := 0 }

/-- The character for a single decimal digit. -/
def digitChar (n : Nat) : Char := Char.ofNat (48 + n)

/-- Is this character a decimal digit? -/
def isDigitCh (c : Char) : Bool := 48 ≤ c.toNat && c.toNat ≤ 57

/-- Numeric value of a digit character. -/
def digVal (c : Char) : Nat := c.toNat - 48

/-- Read a 2-digit decimal field. -/
def read2 (a b : Char) : Option Nat :=
  if isDigitCh a && isDigitCh b then some (10 * digVal a + digVal b) else none

/-- Read a 4-digit decimal field. -/
def read4 (a b c d : Char) : Option Nat :=
  if isDigitCh a && isDigitCh b && isDigitCh c && isDigitCh d then
    some (1000 * digVal a + 100 * digVal b + 10 * digVal c + digVal d)
  else none

/-- The character list printed by Python
`datetime.isoformat(timespec="seconds")`: zero-padded
`YYYY-MM-DDTHH:MM:SS` (fields of a `datetime` are always within the
printed widths). -/
def isoChars (d : DateTime) : List Char :=
  [digitChar (d.year / 1000), digitChar (d.year / 100 % 10),
   digitChar (d.year / 10 % 10), digitChar (d.year % 10), '-',
   digitChar (d.month / 10), digitChar (d.month % 10), '-',
   digitChar (d.day / 10), digitChar (d.day % 10), 'T',
   digitChar (d.hour / 10), digitChar (d.hour % 10), ':',
   digitChar (d.minute / 10), digitChar (d.minute % 10), ':',
   digitChar (d.second / 10), digitChar (d.second % 10)]

/-- Model of `datetime.isoformat(timespec="seconds")` (as used at
profiles.py line 154). -/
def isoformatSeconds (d : DateTime) : String := String.mk (isoChars d)

/-- Model of `datetime.fromisoformat` (as used at profiles.py line 207) on
the grammar fragment relevant here: a date with a full seconds-precision
time, `YYYY-MM-DD?HH:MM:SS` with an arbitrary one-character separator,
field ranges validated as the stdlib does (out-of-range fields raise
`ValueError`, modelled as `none`).  Strings outside this fragment are
rejected (`none`). -/
def fromisoformatChars : List Char → Option DateTime
  | [y1, y2, y3, y4, c1, m1, m2, c2, d1, d2, _sep, h1, h2, c3, n1, n2, c4, s1, s2] =>
    if c1 = '-' ∧ c2 = '-' ∧ c3 = ':' ∧ c4 = ':' then
      match read4 y1 y2 y3 y4, read2 m1 m2, read2 d1 d2,
            read2 h1 h2, read2 n1 n2, read2 s1 s2 with
      | some y, some mo, some da, some h, some mi, some s =>
        if 1 ≤ y ∧ y ≤ 9999 ∧ 1 ≤ mo ∧ mo ≤ 12 ∧ 1 ≤ da ∧ da ≤ daysInMonth y mo ∧
           h ≤ 23 ∧ mi ≤ 59 ∧ s ≤ 59 then
          some ⟨y, mo, da, h, mi, s, 0⟩
        else none
      | _, _, _, _, _, _ => none
    else none
  | _ => none

/-- String-level entry point of the `fromisoformat` model. -/
def fromisoformat (s : String) : Option DateTime :=
  fromisoformatChars s.data

/-- First-match association-list lookup: Python `dict.get` / `in` on a
dict whose keys are unique (dicts preserve insertion order). -/
def lookupA {α : Type} : List (String × α) → String → Option α
  | [], _ => none
  | (k, v) :: t, key => if k = key then some v else lookupA t key

/-- Python `d[key] = value`: overwrite the entry in place if the key is
present, else append (insertion order preserved). -/
def setA {α : Type} : List (String × α) → String → α → List (String × α)
  | [], key, value => [(key, value)]
  | (k, v) :: t, key, value =>
    if k = key then (k, value) :: t else (k, v) :: setA t key value

/-- Modelled from the spec: `models.py` (the `AppRule` dataclass) is not
under src; fields follow the persisted-state layout of section 6 and the
field accesses in profiles.py.  `action` is the Python string literal type
with values "allow" and "block"; `direction` is "in", "out" or "both";
`temporary_until` is an optional ISO timestamp string. -/
structure AppRule where
  app_exe_path : String
  action : String
  direction : String
  temporary_until : Option String
deriving Repr, DecidableEq

/-- Modelled from the spec: `models.py` (the `ProfileConfig` dataclass) is
not under src; fields follow the persisted-state layout of section 6 and
the accesses in profiles.py (`name`, `display_name`, `default_action`,
`app_rules` keyed by resolved executable path). -/
structure ProfileConfig where
  name : String
  display_name : String
  default_action : String
  app_rules : List (String × AppRule)
deriving Repr, DecidableEq

/-- Modelled from the spec: `models.py` (the `FullConfig` dataclass) is not
under src; fields follow the persisted-state layout of section 6
(`active_profile` pointer and `profiles` keyed by name; the global `apps`
registry is not touched by any claimed operation and is omitted). -/
structure FullConfig where
  active_profile : String
  profiles : List (String × ProfileConfig)
deriving Repr, DecidableEq

/-- Result of `get_active_profile`: the (possibly repaired) configuration,
the returned profile (`none` exactly when the Python function raises), the
exception message if raised, and the `save_config` calls performed. -/
structure GetActiveResult where
  cfg : FullConfig
  profile : Option ProfileConfig
  err : Option String
  saves : List FullConfig
deriving Repr, DecidableEq

/-- profiles.py lines 15-32: return the active profile; on an invalid
active pointer repair it (prefer "normal", else the first profile),
persist the repair, or raise RuntimeError when no profiles exist. -/
def get_active_profile (cfg : FullConfig) : GetActiveResult :=
  match lookupA cfg.profiles cfg.active_profile with
  | some p => ⟨cfg, some p, none, []⟩
  | none =>
    if (lookupA cfg.profiles "normal").isSome then
      let cfg2 : FullConfig := { cfg with active_profile := "normal" }
      ⟨cfg2, lookupA cfg2.profiles cfg2.active_profile, none, [cfg2]⟩
    else
      match cfg.profiles with
      | [] => ⟨cfg, none, some "No profiles available in config", []⟩
      | (k, _) :: _ =>
        let cfg2 : FullConfig := { cfg with active_profile := k }
        ⟨cfg2, lookupA cfg2.profiles cfg2.active_profile, none, [cfg2]⟩

/-- Result of `apply_profile`: final configuration (unchanged when the
operation raises before mutating), exception, and the external effects. -/
structure ApplyResult where
  cfg : FullConfig
  err : Option String
  saves : List FullConfig
  syncs : List String
  events : List String
deriving Repr, DecidableEq

/-- profiles.py lines 52-74: load config (passed in), validate the name
(ValueError if unknown), set the active pointer, save, log
PROFILE_APPLIED, then sync the profile to the Windows firewall. -/
def apply_profile (cfg : FullConfig) (profile_name : String) : ApplyResult :=
  if (lookupA cfg.profiles profile_name).isSome then
    let cfg2 : FullConfig := { cfg with active_profile := profile_name }
    ⟨cfg2, none, [cfg2], [profile_name], ["PROFILE_APPLIED"]⟩
  else
    ⟨cfg, some "Profile not found", [], [], []⟩

/-- Result of `set_app_action_in_profile`: the mutated configuration (the
function itself neither saves nor syncs) and the audit events emitted. -/
structure SetActionResult where
  cfg : FullConfig
  err : Option String
  events : List String
deriving Repr, DecidableEq

/-- profiles.py lines 77-121: in the given profile set the rule action for
the resolved path; create the rule with direction "out" and no temporary
override when absent, else overwrite the action and clear temporary_until;
log PROFILE_APP_RULE_CHANGED.  Raises ValueError on an unknown profile. -/
def set_app_action_in_profile (resolve : String → String) (cfg : FullConfig)
    (profile_name exe_path action : String) : SetActionResult :=
  match lookupA cfg.profiles profile_name with
  | none => ⟨cfg, some "Profile not found", []⟩
  | some profile =>
    let exe_path_resolved := resolve exe_path
    let rule2 : AppRule :=
      match lookupA profile.app_rules exe_path_resolved with
      | none => ⟨exe_path_resolved, action, "out", none⟩
      | some rule => { rule with action := action, temporary_until := none }
    let profile2 : ProfileConfig :=
      { profile with app_rules := setA profile.app_rules exe_path_resolved rule2 }
    ⟨{ cfg with profiles := setA cfg.profiles profile_name profile2 },
     none, ["PROFILE_APP_RULE_CHANGED"]⟩

/-- Result of `set_temporary_allow_in_active_profile`. -/
structure TempAllowResult where
  cfg : FullConfig
  err : Option String
  saves : List FullConfig
  syncs : List String
  events : List String
deriving Repr, DecidableEq

/-- profiles.py lines 128-170: on the active profile (after pointer repair
by `get_active_profile`), require an existing rule with action "block" for
the resolved path (else ValueError), set its temporary_until to the ISO
serialization of `until_dt` (the Python code computes `until_dt` as
`datetime.utcnow() + timedelta(minutes=minutes)`; that stdlib arithmetic
is passed in as the explicit input here), save, log APP_TEMP_ALLOW_SET,
and sync the active profile. -/
def set_temporary_allow_in_active_profile (resolve : String → String)
    (cfg : FullConfig) (exe_path : String) (until_dt : DateTime) : TempAllowResult :=
  let g := get_active_profile cfg
  match g.profile with
  | none => ⟨g.cfg, g.err, g.saves, [], []⟩
  | some profile =>
    let exe_path_resolved := resolve exe_path
    match lookupA profile.app_rules exe_path_resolved with
    | none => ⟨g.cfg, some "App is not currently BLOCKED in active profile", g.saves, [], []⟩
    | some rule =>
      if rule.action ≠ "block" then
        ⟨g.cfg, some "App is not currently BLOCKED in active profile", g.saves, [], []⟩
      else
        let until_str := isoformatSeconds until_dt
        let rule2 : AppRule := { rule with temporary_until := some until_str }
        let profile2 : ProfileConfig :=
          { profile with app_rules := setA profile.app_rules exe_path_resolved rule2 }
        let cfg2 : FullConfig :=
          { g.cfg with profiles := setA g.cfg.profiles g.cfg.active_profile profile2 }
        ⟨cfg2, none, g.saves ++ [cfg2], [profile.name], ["APP_TEMP_ALLOW_SET"]⟩

/-- The explanation dict returned by `explain_app_in_active_profile`
(profiles.py lines 181-188). -/
structure Explanation where
  exe_path : String
  profile : String
  profile_display_name : String
  action : String
  direction : String
  temporary_until : Option String
  reason : String
deriving Repr, DecidableEq

/-- Python truthiness of the `temporary_until` field: `None` and the empty
string are falsy (profiles.py line 205 tests `if temporary_until and ...`). -/
def tuTruthy : Option String → Bool
  | none => false
  | some s => !(s = "")

/-- profiles.py lines 197-235, the explicit-rule branch of the evaluation:
effective action, direction, temporary flag and reason for a found rule.
Returns the explanation together with the internal `temp_active` flag. -/
def explainRule (profile : ProfileConfig) (rule : AppRule)
    (exe_path_resolved : String) (now : DateTime) : Explanation × Bool :=
  let ea : String × Bool :=
    if tuTruthy rule.temporary_until = true ∧ rule.action = "block" then
      match rule.temporary_until with
      | some tu =>
        match fromisoformat tu with
        | some expiry =>
          if dtLtB now expiry = true then ("allow", true) else (rule.action, false)
        | none => (rule.action, false)
      | none => (rule.action, false)
    else (rule.action, false)
  let reason : String :=
    if ea.2 then
      "This app would normally be BLOCKED by profile " ++ profile.display_name ++
        ", but it is TEMPORARILY ALLOWED until " ++
        (rule.temporary_until.getD "") ++ "."
    else
      "Explicit rule in profile " ++ profile.display_name ++ ": " ++
        rule.action ++ " (" ++ rule.direction ++ ")"
  (⟨exe_path_resolved, profile.name, profile.display_name, ea.1, rule.direction,
    rule.temporary_until, reason⟩, ea.2)

/-- profiles.py lines 195-249: the effective-action evaluation for a
profile snapshot, a resolved app identity and a clock reading — explicit
rule if present, else the profile default with direction "out". -/
def explainProfile (profile : ProfileConfig) (exe_path_resolved : String)
    (now : DateTime) : Explanation × Bool :=
  match lookupA profile.app_rules exe_path_resolved with
  | some rule => explainRule profile rule exe_path_resolved now
  | none =>
    (⟨exe_path_resolved, profile.name, profile.display_name,
      profile.default_action, "out", none,
      "No explicit rule in profile " ++ profile.display_name ++
        ". Using default_action " ++ profile.default_action ++ "."⟩, false)

/-- Result of `explain_app_in_active_profile`. -/
structure ExplainResult where
  cfg : FullConfig
  err : Option String
  explanation : Option Explanation
  temp_active : Bool
  saves : List FullConfig
  events : List String
deriving Repr, DecidableEq

/-- profiles.py lines 177-258: resolve the active profile (with pointer
repair), canonicalise the path, run the evaluation at `now`, log
APP_STATUS_EXPLAINED, and return the explanation dict. -/
def explain_app_in_active_profile (resolve : String → String) (cfg : FullConfig)
    (exe_path : String) (now : DateTime) : ExplainResult :=
  let g := get_active_profile cfg
  match g.profile with
  | none => ⟨g.cfg, g.err, none, false, g.saves, []⟩
  | some profile =>
    let e := explainProfile profile (resolve exe_path) now
    ⟨g.cfg, none, some e.1, e.2, g.saves, ["APP_STATUS_EXPLAINED"]⟩

/-- Observable outcome of one `log_event` call. -/
structure LogOutcome where
  raised : Option String
  printedWarning : Option String
  wroteLine : Bool
deriving Repr, DecidableEq

/-- activity_log.py lines 21-41: `log_event` first calls
`LOG_DIR.mkdir(parents=True, exist_ok=True)` OUTSIDE the try block, then
writes the entry inside `try: ... except Exception: print(warning)`.
The two filesystem calls can each fail; their outcomes are passed in as
`mkdirFailure` and `writeFailure` (`some exc` models the call raising
exception text `exc`).  A mkdir failure therefore propagates to the
caller; a write failure is caught and printed. -/
def log_event (event_type message : String)
    (mkdirFailure writeFailure : Option String) : LogOutcome :=
  match mkdirFailure with
  | some exc => ⟨some exc, none, false⟩
  | none =>
    match writeFailure with
    | some exc =>
      ⟨none, some ("[activity_log] Failed to write log entry: " ++ exc ++
        " while logging " ++ event_type ++ ": " ++ message), false⟩
    | none => ⟨none, none, true⟩

theorem lookupA_setA_self {α : Type} (l : List (String × α)) (k : String) (v : α) :
    lookupA (setA l k v) k = some v := by
  induction l with
  | nil => simp [setA, lookupA]
  | cons hd t ih =>
    obtain ⟨k0, v0⟩ := hd
    by_cases h : k0 = k <;> simp [setA, lookupA, h, ih]

theorem lookupA_setA_ne {α : Type} (l : List (String × α)) (k k2 : String) (v : α)
    (h : k2 ≠ k) : lookupA (setA l k v) k2 = lookupA l k2 := by
  have hk : ¬k = k2 := fun e => h e.symm
  induction l with
  | nil => simp [setA, lookupA, hk]
  | cons hd t ih =>
    obtain ⟨k0, v0⟩ := hd
    by_cases h0 : k0 = k
    · subst h0
      simp [setA, lookupA, hk]
    · simp [setA, lookupA, h0, ih]

theorem setA_setA {α : Type} (l : List (String × α)) (k : String) (v w : α) :
    setA (setA l k v) k w = setA l k w := by
  induction l with
  | nil => simp [setA]
  | cons hd t ih =>
    obtain ⟨k0, v0⟩ := hd
    by_cases h : k0 = k <;> simp [setA, h, ih]

def wExp : DateTime := ⟨2030, 1, 1, 0, 0, 0, 0⟩

def wNow : DateTime := ⟨2026, 10, 12, 9, 30, 0, 0⟩

def wLate : DateTime := ⟨2031, 6, 1, 12, 0, 0, 500⟩

def wRuleB : AppRule := ⟨"C:/apps/game.exe", "block", "out", some "2030-01-01T00:00:00"⟩

def wProfile : ProfileConfig := ⟨"normal", "Normal", "allow", [("C:/apps/game.exe", wRuleB)]⟩

def wCfg : FullConfig := ⟨"normal", [("normal", wProfile)]⟩

/-- C2: for every profile and every app identity with no explicit rule in
that profile, the effective-action evaluation returns the profile default
action, direction "out", temporary_active = false, and no
temporary_until. -/
theorem c2_default_action (profile : ProfileConfig) (p : String) (now : DateTime)
    (h : lookupA profile.app_rules p = none) :
    (explainProfile profile p now).1.action = profile.default_action ∧
    (explainProfile profile p now).1.direction = "out" ∧
    (explainProfile profile p now).1.temporary_until = none ∧
    (explainProfile profile p now).2 = false := by
  simp [explainProfile, h]

/-- C2 witness: the evaluation at a concrete profile with no rule for the
queried path. -/
theorem c2_default_action_witness :
    (explainProfile wProfile "C:/other.exe" wNow).1.action = wProfile.default_action ∧
    (explainProfile wProfile "C:/other.exe" wNow).1.direction = "out" ∧
    (explainProfile wProfile "C:/other.exe" wNow).1.temporary_until = none ∧
    (explainProfile wProfile "C:/other.exe" wNow).2 = false :=
  c2_default_action wProfile "C:/other.exe" wNow (by decide)

/-- C5: applying an unknown profile name raises ValueError and leaves the
configuration (in particular the active-profile pointer) unchanged, with
no save, no firewall sync and no audit event. -/
theorem c5_apply_profile_unknown (cfg : FullConfig) (name : String)
    (h : lookupA cfg.profiles name = none) :
    apply_profile cfg name = ⟨cfg, some "Profile not found", [], [], []⟩ := by
  simp [apply_profile, h]

/-- C5 witness: applying a missing profile name on a concrete
configuration. -/
theorem c5_apply_profile_unknown_witness :
    apply_profile wCfg "nonexistent" = ⟨wCfg, some "Profile not found", [], [], []⟩ :=
  c5_apply_profile_unknown wCfg "nonexistent" (by decide)

/-- C7: a block rule whose non-empty temporary_until does not parse is
treated as if no override existed: the evaluation returns the stored
action "block" with temporary_active = false (and, being a total
function, does not fail). -/
theorem c7_malformed_timestamp (profile : ProfileConfig) (rule : AppRule)
    (p s : String) (now : DateTime)
    (hr : lookupA profile.app_rules p = some rule)
    (hb : rule.action = "block")
    (ht : rule.temporary_until = some s)
    (hne : s ≠ "")
    (hparse : fromisoformat s = none) :
    (explainProfile profile p now).1.action = "block" ∧
    (explainProfile profile p now).2 = false := by
  simp [explainProfile, hr, explainRule, ht, tuTruthy, hne, hb, hparse]

/-- A block rule carrying an unparseable timestamp, for the C7 witness. -/
def wRuleM : AppRule := ⟨"C:/a.exe", "block", "out", some "soon"⟩

/-- A profile holding `wRuleM`, for the C7 witness. -/
def wProfileM : ProfileConfig := ⟨"normal", "Normal", "allow", [("C:/a.exe", wRuleM)]⟩

/-- C7 witness: a concrete block rule carrying the unparseable timestamp
"soon". -/
theorem c7_malformed_timestamp_witness :
    (explainProfile wProfileM "C:/a.exe" wNow).1.action = "block" ∧
    (explainProfile wProfileM "C:/a.exe" wNow).2 = false :=
  c7_malformed_timestamp wProfileM wRuleM "C:/a.exe" "soon" wNow (by decide) (by decide)
    (by decide) (by decide) (by decide)

/-- C1: for a profile whose active pointer is valid and a rule with
action "block" and a parseable non-empty temporary_until, the evaluation
returns allow with temporary_active = true and the rule direction while
`now` is strictly before the expiry, and block with
temporary_active = false once `now` is at or past it; the configuration
(in particular the stored rule) is returned unmodified in both cases. -/
theorem c1_temporary_override (resolve : String → String) (cfg : FullConfig)
    (profile : ProfileConfig) (rule : AppRule) (exe s : String) (exp now : DateTime)
    (hactive : lookupA cfg.profiles cfg.active_profile = some profile)
    (hrule : lookupA profile.app_rules (resolve exe) = some rule)
    (hblock : rule.action = "block")
    (htu : rule.temporary_until = some s)
    (hne : s ≠ "")
    (hparse : fromisoformat s = some exp) :
    (explain_app_in_active_profile resolve cfg exe now).cfg = cfg ∧
    (explain_app_in_active_profile resolve cfg exe now).err = none ∧
    ((explain_app_in_active_profile resolve cfg exe now).explanation.map
        Explanation.direction) = some rule.direction ∧
    (dtLtB now exp = true →
      ((explain_app_in_active_profile resolve cfg exe now).explanation.map
          Explanation.action) = some "allow" ∧
      (explain_app_in_active_profile resolve cfg exe now).temp_active = true) ∧
    (dtLtB now exp = false →
      ((explain_app_in_active_profile resolve cfg exe now).explanation.map
          Explanation.action) = some "block" ∧
      (explain_app_in_active_profile resolve cfg exe now).temp_active = false) := by
  have hg : get_active_profile cfg = ⟨cfg, some profile, none, []⟩ := by
    simp [get_active_profile, hactive]
  cases hlt : dtLtB now exp <;>
    simp [explain_app_in_active_profile, hg, explainProfile, hrule, explainRule, htu,
      tuTruthy, hne, hblock, hparse, hlt]

/-- C1 witness: the concrete configuration `wCfg` holds a block rule for
"C:/apps/game.exe" expiring in 2030; evaluated before (wNow, 2026) and
after (wLate, 2031) the expiry. -/
theorem c1_temporary_override_witness :
    ((explain_app_in_active_profile id wCfg "C:/apps/game.exe" wNow).cfg = wCfg ∧
     ((explain_app_in_active_profile id wCfg "C:/apps/game.exe" wNow).explanation.map
         Explanation.action) = some "allow" ∧
     (explain_app_in_active_profile id wCfg "C:/apps/game.exe" wNow).temp_active = true) ∧
    ((explain_app_in_active_profile id wCfg "C:/apps/game.exe" wLate).cfg = wCfg ∧
     ((explain_app_in_active_profile id wCfg "C:/apps/game.exe" wLate).explanation.map
         Explanation.action) = some "block" ∧
     (explain_app_in_active_profile id wCfg "C:/apps/game.exe" wLate).temp_active = false) := by
  have h1 := c1_temporary_override id wCfg wProfile wRuleB "C:/apps/game.exe"
    "2030-01-01T00:00:00" wExp wNow (by decide) (by decide) (by decide) (by decide)
    (by decide) (by decide)
  have h2 := c1_temporary_override id wCfg wProfile wRuleB "C:/apps/game.exe"
    "2030-01-01T00:00:00" wExp wLate (by decide) (by decide) (by decide) (by decide)
    (by decide) (by decide)
  exact ⟨⟨h1.1, (h1.2.2.2.1 (by decide)).1, (h1.2.2.2.1 (by decide)).2⟩,
    ⟨h2.1, (h2.2.2.2.2 (by decide)).1, (h2.2.2.2.2 (by decide)).2⟩⟩

/-- C6: on a configuration whose active pointer references no existing
profile, get_active_profile fails exactly when the profile set is empty;
otherwise it repairs the pointer to "normal" when a profile of that name
exists, else to the first profile, persists exactly the repaired
configuration, and returns the profile now referenced by the repaired
pointer. -/
theorem c6_repair (cfg : FullConfig)
    (h : lookupA cfg.profiles cfg.active_profile = none) :
    ((get_active_profile cfg).err.isSome ↔ cfg.profiles = []) ∧
    ((get_active_profile cfg).profile.isSome ↔ cfg.profiles ≠ []) ∧
    (cfg.profiles ≠ [] →
      (get_active_profile cfg).cfg.active_profile =
        (if (lookupA cfg.profiles "normal").isSome then "normal"
         else ((cfg.profiles.head?.map Prod.fst).getD cfg.active_profile)) ∧
      (get_active_profile cfg).saves = [(get_active_profile cfg).cfg] ∧
      (get_active_profile cfg).profile =
        lookupA cfg.profiles (get_active_profile cfg).cfg.active_profile) := by
  obtain ⟨ap, profs⟩ := cfg
  by_cases hn : (lookupA profs "normal").isSome
  · obtain ⟨p, hp⟩ := Option.isSome_iff_exists.mp hn
    have hne : profs ≠ [] := by
      intro he
      subst he
      simp [lookupA] at hp
    simp [get_active_profile, h, hp, hne]
  · cases profs with
    | nil => simp [get_active_profile, lookupA]
    | cons hd t =>
      obtain ⟨k, v⟩ := hd
      simp only [lookupA] at h hn
      simp [get_active_profile, h, hn, lookupA]

/-- A configuration with a dangling active-profile pointer, for the C6
witness. -/
def wCfgBad : FullConfig := ⟨"gone", [("focus", wProfileM), ("normal", wProfile)]⟩

/-- C6 witness: `wCfgBad` has active pointer "gone"; the repair prefers
the profile named "normal" over the first profile "focus". -/
theorem c6_repair_witness :
    lookupA wCfgBad.profiles wCfgBad.active_profile = none ∧
    (((get_active_profile wCfgBad).err.isSome ↔ wCfgBad.profiles = []) ∧
     ((get_active_profile wCfgBad).profile.isSome ↔ wCfgBad.profiles ≠ []) ∧
     (wCfgBad.profiles ≠ [] →
       (get_active_profile wCfgBad).cfg.active_profile =
         (if (lookupA wCfgBad.profiles "normal").isSome then "normal"
          else ((wCfgBad.profiles.head?.map Prod.fst).getD wCfgBad.active_profile)) ∧
       (get_active_profile wCfgBad).saves = [(get_active_profile wCfgBad).cfg] ∧
       (get_active_profile wCfgBad).profile =
         lookupA wCfgBad.profiles (get_active_profile wCfgBad).cfg.active_profile)) :=
  ⟨by decide, c6_repair wCfgBad (by decide)⟩

/-- C3: on a profile present in the configuration,
set_app_action_in_profile succeeds and leaves, at the canonicalized path,
a rule with exactly the requested action and no temporary_until — with
direction "out" when the rule is created and the previous direction when
it is updated — and running the same call again on the result changes
nothing (idempotence). -/
theorem c3_set_action (resolve : String → String) (cfg : FullConfig)
    (pname exe action : String) (profile : ProfileConfig)
    (h : lookupA cfg.profiles pname = some profile) :
    (set_app_action_in_profile resolve cfg pname exe action).err = none ∧
    (∃ profile2 rule2,
      lookupA (set_app_action_in_profile resolve cfg pname exe action).cfg.profiles pname
        = some profile2 ∧
      lookupA profile2.app_rules (resolve exe) = some rule2 ∧
      rule2.action = action ∧ rule2.temporary_until = none ∧
      rule2.direction =
        (match lookupA profile.app_rules (resolve exe) with
         | none => "out"
         | some r0 => r0.direction)) ∧
    set_app_action_in_profile resolve
        (set_app_action_in_profile resolve cfg pname exe action).cfg pname exe action
      = ⟨(set_app_action_in_profile resolve cfg pname exe action).cfg, none,
         ["PROFILE_APP_RULE_CHANGED"]⟩ := by
  cases hl : lookupA profile.app_rules (resolve exe) with
  | none =>
    refine ⟨by simp [set_app_action_in_profile, h], ?_, ?_⟩
    · refine ⟨{ profile with app_rules := (setA profile.app_rules (resolve exe)
          ⟨resolve exe, action, "out", none⟩) },
        ⟨resolve exe, action, "out", none⟩, ?_, ?_, rfl, rfl, by simp [hl]⟩
      · simp [set_app_action_in_profile, h, hl, lookupA_setA_self]
      · exact lookupA_setA_self _ _ _
    · simp [set_app_action_in_profile, h, hl, lookupA_setA_self, setA_setA]
  | some r0 =>
    refine ⟨by simp [set_app_action_in_profile, h], ?_, ?_⟩
    · refine ⟨{ profile with app_rules := (setA profile.app_rules (resolve exe)
          ⟨r0.app_exe_path, action, r0.direction, none⟩) },
        ⟨r0.app_exe_path, action, r0.direction, none⟩, ?_, ?_, rfl, rfl, by simp [hl]⟩
      · simp [set_app_action_in_profile, h, hl, lookupA_setA_self]
      · exact lookupA_setA_self _ _ _
    · simp [set_app_action_in_profile, h, hl, lookupA_setA_self, setA_setA]

/-- C3 witness: setting "allow" on the existing block rule of `wCfg` for
"C:/apps/game.exe". -/
theorem c3_set_action_witness :
    (set_app_action_in_profile id wCfg "normal" "C:/apps/game.exe" "allow").err = none ∧
    (∃ profile2 rule2,
      lookupA (set_app_action_in_profile id wCfg "normal" "C:/apps/game.exe"
          "allow").cfg.profiles "normal" = some profile2 ∧
      lookupA profile2.app_rules (id "C:/apps/game.exe") = some rule2 ∧
      rule2.action = "allow" ∧ rule2.temporary_until = none ∧
      rule2.direction =
        (match lookupA wProfile.app_rules (id "C:/apps/game.exe") with
         | none => "out"
         | some r0 => r0.direction)) ∧
    set_app_action_in_profile id
        (set_app_action_in_profile id wCfg "normal" "C:/apps/game.exe" "allow").cfg
        "normal" "C:/apps/game.exe" "allow"
      = ⟨(set_app_action_in_profile id wCfg "normal" "C:/apps/game.exe" "allow").cfg, none,
         ["PROFILE_APP_RULE_CHANGED"]⟩ :=
  c3_set_action id wCfg "normal" "C:/apps/game.exe" "allow" wProfile (by decide)

/-- C4: with a valid active pointer, set_temporary_allow fails (ValueError,
the NotCurrentlyBlocked condition) when the resolved path has no rule or a
rule whose action is not "block", leaving the configuration unchanged with
no save and no firewall sync; with a block rule it succeeds, stores the
serialized until_dt in the rule (action untouched), saves exactly the new
configuration and syncs the active profile. -/
theorem c4_temp_allow (resolve : String → String) (cfg : FullConfig)
    (profile : ProfileConfig) (exe : String) (until_dt : DateTime)
    (hactive : lookupA cfg.profiles cfg.active_profile = some profile) :
    (lookupA profile.app_rules (resolve exe) = none →
      (set_temporary_allow_in_active_profile resolve cfg exe until_dt).err.isSome = true ∧
      (set_temporary_allow_in_active_profile resolve cfg exe until_dt).cfg = cfg ∧
      (set_temporary_allow_in_active_profile resolve cfg exe until_dt).saves = [] ∧
      (set_temporary_allow_in_active_profile resolve cfg exe until_dt).syncs = []) ∧
    (∀ rule, lookupA profile.app_rules (resolve exe) = some rule → rule.action ≠ "block" →
      (set_temporary_allow_in_active_profile resolve cfg exe until_dt).err.isSome = true ∧
      (set_temporary_allow_in_active_profile resolve cfg exe until_dt).cfg = cfg ∧
      (set_temporary_allow_in_active_profile resolve cfg exe until_dt).saves = [] ∧
      (set_temporary_allow_in_active_profile resolve cfg exe until_dt).syncs = []) ∧
    (∀ rule, lookupA profile.app_rules (resolve exe) = some rule → rule.action = "block" →
      (set_temporary_allow_in_active_profile resolve cfg exe until_dt).err = none ∧
      (set_temporary_allow_in_active_profile resolve cfg exe until_dt).saves =
        [(set_temporary_allow_in_active_profile resolve cfg exe until_dt).cfg] ∧
      (set_temporary_allow_in_active_profile resolve cfg exe until_dt).syncs =
        [profile.name] ∧
      ∃ profile2 rule2,
        lookupA (set_temporary_allow_in_active_profile resolve cfg exe
            until_dt).cfg.profiles cfg.active_profile = some profile2 ∧
        lookupA profile2.app_rules (resolve exe) = some rule2 ∧
        rule2.temporary_until = some (isoformatSeconds until_dt) ∧
        rule2.action = rule.action) := by
  have hg : get_active_profile cfg = ⟨cfg, some profile, none, []⟩ := by
    simp [get_active_profile, hactive]
  refine ⟨?_, ?_, ?_⟩
  · intro hl
    simp [set_temporary_allow_in_active_profile, hg, hl]
  · intro rule hl hnb
    simp [set_temporary_allow_in_active_profile, hg, hl, hnb]
  · intro rule hl hb
    have hnb : ¬rule.action ≠ "block" := by simp [hb]
    refine ⟨by simp [set_temporary_allow_in_active_profile, hg, hl, hnb],
      by simp [set_temporary_allow_in_active_profile, hg, hl, hnb],
      by simp [set_temporary_allow_in_active_profile, hg, hl, hnb], ?_⟩
    refine ⟨{ profile with app_rules := (setA profile.app_rules (resolve exe)
        { rule with temporary_until := some (isoformatSeconds until_dt) }) },
      { rule with temporary_until := some (isoformatSeconds until_dt) }, ?_, ?_, rfl, rfl⟩
    · simp [set_temporary_allow_in_active_profile, hg, hl, hnb, lookupA_setA_self]
    · exact lookupA_setA_self _ _ _

/-- C4 witness: on `wCfg`, temporary allow succeeds for the blocked
"C:/apps/game.exe" (syncing profile "normal") and fails without saving for
the ruleless "C:/notarule.exe". -/
theorem c4_temp_allow_witness :
    (set_temporary_allow_in_active_profile id wCfg "C:/apps/game.exe" wExp).err = none ∧
    (set_temporary_allow_in_active_profile id wCfg "C:/apps/game.exe" wExp).syncs
      = ["normal"] ∧
    (set_temporary_allow_in_active_profile id wCfg "C:/notarule.exe" wExp).err.isSome
      = true ∧
    (set_temporary_allow_in_active_profile id wCfg "C:/notarule.exe" wExp).saves = [] := by
  have h1 := c4_temp_allow id wCfg wProfile "C:/apps/game.exe" wExp (by decide)
  have h2 := c4_temp_allow id wCfg wProfile "C:/notarule.exe" wExp (by decide)
  have hs := h1.2.2 wRuleB (by decide) (by decide)
  have hf := h2.1 (by decide)
  exact ⟨hs.1, hs.2.2.1, hf.1, hf.2.2.1⟩

/-- C8: with a valid active pointer, the effective-action evaluation is
pure and deterministic — the result of explain_app_in_active_profile is
exactly the pure function explainProfile applied to (profile snapshot,
canonicalized identity, now), the configuration comes back unchanged and
nothing is persisted or synced, and running the operation again on the
resulting state yields the identical outcome.  (The wrapper additionally
emits its one audit event, the sole side effect section 4.5 allows the
diagnostics path; the evaluation itself performs none.) -/
theorem c8_pure_evaluation (resolve : String → String) (cfg : FullConfig)
    (profile : ProfileConfig) (exe : String) (now : DateTime)
    (hactive : lookupA cfg.profiles cfg.active_profile = some profile) :
    (explain_app_in_active_profile resolve cfg exe now).cfg = cfg ∧
    (explain_app_in_active_profile resolve cfg exe now).err = none ∧
    (explain_app_in_active_profile resolve cfg exe now).saves = [] ∧
    (explain_app_in_active_profile resolve cfg exe now).explanation
      = some (explainProfile profile (resolve exe) now).1 ∧
    (explain_app_in_active_profile resolve cfg exe now).temp_active
      = (explainProfile profile (resolve exe) now).2 ∧
    explain_app_in_active_profile resolve
        (explain_app_in_active_profile resolve cfg exe now).cfg exe now
      = explain_app_in_active_profile resolve cfg exe now := by
  have hg : get_active_profile cfg = ⟨cfg, some profile, none, []⟩ := by
    simp [get_active_profile, hactive]
  refine ⟨?_, ?_, ?_, ?_, ?_, ?_⟩ <;> simp [explain_app_in_active_profile, hg]

/-- C8 witness: the evaluation on the concrete `wCfg`. -/
theorem c8_pure_evaluation_witness :
    (explain_app_in_active_profile id wCfg "C:/apps/game.exe" wNow).cfg = wCfg ∧
    (explain_app_in_active_profile id wCfg "C:/apps/game.exe" wNow).saves = [] ∧
    (explain_app_in_active_profile id wCfg "C:/apps/game.exe" wNow).explanation
      = some (explainProfile wProfile (id "C:/apps/game.exe") wNow).1 ∧
    explain_app_in_active_profile id
        (explain_app_in_active_profile id wCfg "C:/apps/game.exe" wNow).cfg
        "C:/apps/game.exe" wNow
      = explain_app_in_active_profile id wCfg "C:/apps/game.exe" wNow := by
  have h := c8_pure_evaluation id wCfg wProfile "C:/apps/game.exe" wNow (by decide)
  exact ⟨h.1, h.2.2.1, h.2.2.2.1, h.2.2.2.2.2⟩

/-- C9: the mkdir call of log_event sits outside its try/except, so a
filesystem failure there propagates to the caller, while a failure of the
guarded write is caught and printed.  This contradicts the never-raise
contract (and the code's own comment that logging should never crash the
app): the first conjunct exhibits the raise, the remaining ones show the
intended caught-and-printed behaviour of the guarded part. -/
theorem c9_log_event_mkdir_raises (event_type message exc : String)
    (writeFailure : Option String) :
    (log_event event_type message (some exc) writeFailure).raised = some exc ∧
    (log_event event_type message none (some exc)).raised = none ∧
    (log_event event_type message none (some exc)).printedWarning.isSome = true ∧
    (log_event event_type message none none).raised = none := by
  simp [log_event]

theorem isDigit_digitChar : ∀ k, k ≤ 9 → isDigitCh (digitChar k) = true := by decide

theorem digVal_digitChar : ∀ k, k ≤ 9 → digVal (digitChar k) = k := by decide

theorem read2_digits (n : Nat) (h : n ≤ 99) :
    read2 (digitChar (n / 10)) (digitChar (n % 10)) = some n := by
  have h1 : n / 10 ≤ 9 := by omega
  have h2 : n % 10 ≤ 9 := by omega
  simp [read2, isDigit_digitChar _ h1, isDigit_digitChar _ h2,
    digVal_digitChar _ h1, digVal_digitChar _ h2]
  omega

theorem read4_digits (n : Nat) (h : n ≤ 9999) :
    read4 (digitChar (n / 1000)) (digitChar (n / 100 % 10)) (digitChar (n / 10 % 10))
      (digitChar (n % 10)) = some n := by
  have h1 : n / 1000 ≤ 9 := by omega
  have h2 : n / 100 % 10 ≤ 9 := by omega
  have h3 : n / 10 % 10 ≤ 9 := by omega
  have h4 : n % 10 ≤ 9 := by omega
  simp [read4, isDigit_digitChar _ h1, isDigit_digitChar _ h2, isDigit_digitChar _ h3,
    isDigit_digitChar _ h4, digVal_digitChar _ h1, digVal_digitChar _ h2,
    digVal_digitChar _ h3, digVal_digitChar _ h4]
  omega

theorem daysInMonth_le (y m : Nat) : daysInMonth y m ≤ 31 := by
  unfold daysInMonth
  split
  · split <;> omega
  · split <;> omega

theorem isoformatSeconds_ne_empty (d : DateTime) : isoformatSeconds d ≠ "" := by
  intro hc
  have hd := congrArg String.data hc
  simp [isoformatSeconds, isoChars] at hd

/-- C10: every timestamp string written by
set_temporary_allow_in_active_profile — the seconds-precision isoformat of
a Python datetime value — is parsed back by the fromisoformat model to the
same instant truncated to seconds, so for overrides created through this
operation the malformed-timestamp fallback of the evaluation is
unreachable: on such a rule the evaluation is fully determined by the
clock comparison. -/
theorem c10_roundtrip (d : DateTime) (hv : ValidDT d) :
    fromisoformat (isoformatSeconds d) = some (truncSec d) ∧
    (∀ (profile : ProfileConfig) (rule : AppRule) (p : String) (now : DateTime),
      rule.action = "block" → rule.temporary_until = some (isoformatSeconds d) →
      (explainRule profile rule p now).2 = dtLtB now (truncSec d) ∧
      (explainRule profile rule p now).1.action =
        (if dtLtB now (truncSec d) = true then "allow" else "block")) := by
  obtain ⟨hy1, hy2, hm1, hm2, hd1, hd2, hh, hmi, hs, hus⟩ := hv
  have hparse : fromisoformat (isoformatSeconds d) = some (truncSec d) := by
    have hy := read4_digits d.year (by omega)
    have hmo := read2_digits d.month (by omega)
    have hdm := daysInMonth_le d.year d.month
    have hda := read2_digits d.day (by omega)
    have hho := read2_digits d.hour (by omega)
    have hmin := read2_digits d.minute (by omega)
    have hsec := read2_digits d.second (by omega)
    have hr : 1 ≤ d.year ∧ d.year ≤ 9999 ∧ 1 ≤ d.month ∧ d.month ≤ 12 ∧ 1 ≤ d.day ∧
        d.day ≤ daysInMonth d.year d.month ∧ d.hour ≤ 23 ∧ d.minute ≤ 59 ∧
        d.second ≤ 59 :=
      ⟨hy1, hy2, hm1, hm2, hd1, hd2, hh, hmi, hs⟩
    rw [show fromisoformat (isoformatSeconds d) = fromisoformatChars (isoChars d) from rfl]
    simp [isoChars, fromisoformatChars, hy, hmo, hda, hho, hmin, hsec, hr, truncSec]
  refine ⟨hparse, ?_⟩
  intro profile rule p now hb htu
  have hne : isoformatSeconds d ≠ "" := isoformatSeconds_ne_empty d
  cases hlt : dtLtB now (truncSec d) <;>
    simp [explainRule, htu, tuTruthy, hne, hb, hparse, hlt]

/-- C10 witness: the round trip at the concrete datetime `wExp`. -/
theorem c10_roundtrip_witness :
    ValidDT wExp ∧ fromisoformat (isoformatSeconds wExp) = some (truncSec wExp) :=
  ⟨by decide, (c10_roundtrip wExp (by decide)).1⟩
